import Mathlib

/-!
# Verification of the ed-joystick-helper input-dispatch engine

Shallow embedding of `src/ed_joystick_helper.py` (class `EDJoystickHelper`)
and the configuration loader of `src/main.py`, together with proofs about
the dispatcher, the momentary state, the hat-direction resolver, the
sequence executor and the reload path.

Modelling conventions:
* Python dicts are association lists (`List (String × α)`), looked up with
  `List.lookup` (keys are unique in every state the program builds);
  Python sets are `List String` with membership-guarded insertion.
* Durations (`delay`, the argument of `time.sleep`) are exact rationals.
* The `logging` calls of `_execute_sequence` appear as structured trace
  events; logging calls elsewhere (pure observability, no claim depends on
  them) are not modelled.
* pynput `Key` attributes are the fixed name list `pynputKeyNames`.
-/

/-- One entry of a `sequence` list in the configuration:
Python `{"key": <str>, "presses": <number>}`.  `presses` is a repeat count
for ordinary keys and a duration in seconds for the literal key `"WAIT"`;
it is a single dynamically typed numeric field in the source, modelled as
an exact rational. -/
structure SeqItem where
  key : String
  presses : ℚ
deriving DecidableEq, Repr

/-- Behaviour of a configured `preRun`/`afterRun` callback when invoked:
it either returns normally or raises an exception. -/
inductive HookBehavior
  | ok
  | raises
deriving DecidableEq, Repr

/-- One value of the configuration dict (`self.config[config_key]` in the
source): the `sequence` list, the optional `delay` (the source applies
`button_config.get("delay", 0.1)`), the optional `modifier` string, and the
optional `preRun`/`afterRun` callables (absent-or-non-callable hooks are
`none`; the source skips them via `callable(...)`). -/
structure ButtonConfig where
  sequence : List SeqItem
  delay : Option ℚ := none
  modifier : Option String := none
  preRun : Option HookBehavior := none
  afterRun : Option HookBehavior := none
deriving DecidableEq, Repr

/-- The configuration dict: canonical event identifier → button config. -/
abbrev Config := List (String × ButtonConfig)

/-- Attribute names of pynput's `Key` enum, used by `_map_key`'s
`hasattr(Key, key_attr)` test. -/
def pynputKeyNames : List String :=
  ["alt", "alt_gr", "alt_l", "alt_r", "backspace", "caps_lock",
   "cmd", "cmd_l", "cmd_r", "ctrl", "ctrl_l", "ctrl_r", "delete",
   "down", "end", "enter", "esc", "f1", "f2", "f3", "f4", "f5", "f6",
   "f7", "f8", "f9", "f10", "f11", "f12", "f13", "f14", "f15", "f16",
   "f17", "f18", "f19", "f20", "home", "insert", "left", "media_next",
   "media_play_pause", "media_previous", "media_volume_down",
   "media_volume_mute", "media_volume_up", "menu", "num_lock",
   "page_down", "page_up", "pause", "print_screen", "right",
   "scroll_lock", "shift", "shift_l", "shift_r", "space", "tab", "up"]

/-- A key handed to the output sink (`pynput.keyboard.Controller`): either
a member of the `Key` enum (`getattr(Key, key_attr)`) or a plain string. -/
inductive KeyRef
  | special (name : String)
  | char (s : String)
deriving DecidableEq, Repr

/-- Python's `str.lower()` on ASCII identifiers (character-wise). -/
def pyLower (s : String) : String :=
  String.mk (s.data.map Char.toLower)

/-- Python's `str.upper()` on ASCII identifiers (character-wise). -/
def pyUpper (s : String) : String :=
  String.mk (s.data.map Char.toUpper)

/-- `EDJoystickHelper._map_key`: a name starting with `"KEY_"` whose
lower-cased remainder is a `Key` attribute becomes that special key;
everything else is passed through as a character string. -/
def map_key (key_name : String) : KeyRef :=
  if key_name.data.take 4 = "KEY_".data ∧
     pyLower (String.mk (key_name.data.drop 4)) ∈ pynputKeyNames then
    .special (pyLower (String.mk (key_name.data.drop 4)))
  else
    .char key_name

/-- Observable events of one `_execute_sequence` run, in program order:
the sink calls (`keyboard.press` / `keyboard.release`), the suspensions
(`time.sleep`), the hook invocations, and the logging calls made inside
`_execute_sequence`. -/
inductive ExecEvent
  | logInfoExecStart (button_name : String)
  | callPreRun (button_name : String)
  | logDebugPressing (key : KeyRef) (iter : Nat) (total : ℚ)
  | press (k : KeyRef)
  | release (k : KeyRef)
  | sleep (t : ℚ)
  | callAfterRun (button_name : String)
deriving DecidableEq, Repr

/-- Whether an executor run finished normally or was aborted by an
exception escaping (the run happens on its own `threading.Thread`, so the
exception terminates only that thread). -/
inductive ExecOutcome
  | completed
  | raised
deriving DecidableEq, Repr

/-- Iteration count of Python's `range(presses)` loop.  `presses` is an
integer in every well-formed configuration; `range` of a negative integer
is empty, and `range` of a non-integer raises `TypeError` (not modelled —
no configuration in the repository or the claims contains one). -/
def pyRange (q : ℚ) : Nat :=
  if q.den = 1 then q.num.toNat else 0

/-- The body of `_execute_sequence`'s `for item in sequence` loop for one
item: `"WAIT"` sleeps for `presses` seconds and `continue`s; any other key
is mapped with `_map_key` and pressed/released `presses` times with the
configured delay after the press and after the release. -/
def itemEvents (delay : ℚ) (item : SeqItem) : List ExecEvent :=
  if item.key = "WAIT" then
    [.sleep item.presses]
  else
    (List.range (pyRange item.presses)).flatMap (fun i =>
      [.logDebugPressing (map_key item.key) (i + 1) item.presses,
       .press (map_key item.key), .sleep delay,
       .release (map_key item.key), .sleep delay])

/-- `EDJoystickHelper._execute_sequence(button_name, button_config)`:
logs the start, invokes `preRun` if present (an exception there aborts
the run before any step), emits every sequence item with
`delay = button_config.get("delay", 0.1)`, then invokes `afterRun` if
present (an exception there aborts after all steps already ran).
Returns the event trace and whether an exception escaped. -/
def execute_sequence (button_name : String) (cfg : ButtonConfig) :
    List ExecEvent × ExecOutcome :=
  let head := [ExecEvent.logInfoExecStart button_name]
  match cfg.preRun with
  | some .raises => (head ++ [.callPreRun button_name], .raised)
  | pre =>
    let head := head ++ (if pre.isSome then [ExecEvent.callPreRun button_name] else [])
    let delay := cfg.delay.getD (mkRat 1 10)
    let body := cfg.sequence.flatMap (itemEvents delay)
    match cfg.afterRun with
    | some .raises => (head ++ body ++ [.callAfterRun button_name], .raised)
    | some .ok => (head ++ body ++ [.callAfterRun button_name], .completed)
    | none => (head ++ body, .completed)

/-- The direction table of `_process_hat_event` (and, identically, of
`print_joystick_events`): the if/elif chain over the hat's two axis
values, defaulting to `"centered"`. -/
def hat_direction (x_value y_value : Int) : String :=
  if x_value = 0 ∧ y_value = 1 then "up"
  else if x_value = 1 ∧ y_value = 1 then "up-right"
  else if x_value = 1 ∧ y_value = 0 then "right"
  else if x_value = 1 ∧ y_value = -1 then "down-right"
  else if x_value = 0 ∧ y_value = -1 then "down"
  else if x_value = -1 ∧ y_value = -1 then "down-left"
  else if x_value = -1 ∧ y_value = 0 then "left"
  else if x_value = -1 ∧ y_value = 1 then "up-left"
  else "centered"

/-- Python `set.add`: insert unless already a member. -/
def setAdd (l : List String) (x : String) : List String :=
  if x ∈ l then l else l ++ [x]

/-- The guarded removal idiom of the source:
`if x in s: s.remove(x)`. -/
def setRemove (l : List String) (x : String) : List String :=
  l.erase x

/-- Python `dict.get(k, None)`. -/
def dictGet (l : List (String × String)) (k : String) : Option String :=
  l.lookup k

/-- Python `d[k] = v`: overwrite the binding if present, else append. -/
def dictSet (l : List (String × String)) (k : String) (v : String) :
    List (String × String) :=
  if (l.lookup k).isSome then
    l.map (fun p => if p.1 = k then (k, v) else p)
  else
    l ++ [(k, v)]

/-- The mutable attributes of an `EDJoystickHelper` instance that the
event loop, the dispatcher and the reload path touch. -/
structure HelperState where
  config : Config
  pressed_buttons : List String
  current_hat_positions : List (String × String)
  config_file_path : Option String
deriving DecidableEq, Repr

/-- One dispatch attempt: a call of `_process_button_press` with the
`config_key` it looked up, and the `(button_name, button_config)` snapshot
handed to a spawned `threading.Thread(target=self._execute_sequence, ...)`
when the lookup and the modifier gate both succeeded (`none` otherwise). -/
structure Dispatch where
  key : String
  spawned : Option ButtonConfig
deriving DecidableEq, Repr

/-- The `config_key` computed at the top of `_process_button_press`:
the bare name when `joy_id is None`, else `f"{button_name}_JOY{joy_id}"`. -/
def configKey (button_name : String) (joy_id : Option Nat) : String :=
  match joy_id with
  | some j => button_name ++ "_JOY" ++ toString j
  | none => button_name

/-- `EDJoystickHelper._process_button_press(button_name, joy_id)`:
look the `config_key` up in `self.config`; on a hit, return without
dispatching when the entry has a `modifier` that is not in
`self.pressed_buttons`; otherwise spawn a thread running
`_execute_sequence(config_key, button_config)`.  The state is not
modified; the single dispatch attempt is returned. -/
def process_button_press (s : HelperState) (button_name : String)
    (joy_id : Option Nat) : Dispatch :=
  let config_key := configKey button_name joy_id
  match s.config.lookup config_key with
  | none => ⟨config_key, none⟩
  | some button_config =>
    match button_config.modifier with
    | some modifier =>
      if modifier ∈ s.pressed_buttons then ⟨config_key, some button_config⟩
      else ⟨config_key, none⟩
    | none => ⟨config_key, some button_config⟩

/-- `EDJoystickHelper._process_hat_event(hat_id, x_value, y_value, joy_id)`:
resolve the direction, build the hat name (`_JOY` suffix when a joystick
id is given), and only when the stored position
(`self.current_hat_positions.get(hat_name, None)`) differs from the
resolved direction: store the new direction and process
`f"{hat_name}_{direction}"` as a button press (with `joy_id=None`). -/
def process_hat_event (s : HelperState) (hat_id : Nat) (x_value y_value : Int)
    (joy_id : Option Nat) : HelperState × List Dispatch :=
  let direction := hat_direction x_value y_value
  let hat_name :=
    match joy_id with
    | some j => "HAT_" ++ toString hat_id ++ "_JOY" ++ toString j
    | none => "HAT_" ++ toString hat_id
  if dictGet s.current_hat_positions hat_name ≠ some direction then
    let s' := { s with
      current_hat_positions := dictSet s.current_hat_positions hat_name direction }
    let hat_event := hat_name ++ "_" ++ direction
    (s', [process_button_press s' hat_event none])
  else
    (s, [])

/-- A raw pygame event as consumed by the loop in
`EDJoystickHelper.start` (the `joy` attribute is always present on
joystick events; the source's `hasattr` fallback to `0` is dead code). -/
inductive PyEvent
  | joyButtonDown (button : Nat) (joy : Nat)
  | joyButtonUp (button : Nat) (joy : Nat)
  | joyHatMotion (hat : Nat) (x y : Int) (joy : Nat)
  | keyDown (keyName : String)
  | keyUp (keyName : String)
deriving DecidableEq, Repr

/-- The canonical identifier the keyboard branches of `start` compute:
`f"KEY_{key_name.upper()}" if len(key_name) > 1 else key_name`. -/
def keyboardId (key_name : String) : String :=
  if key_name.data.length > 1 then "KEY_" ++ pyUpper key_name else key_name

/-- One iteration body of the event loop in `EDJoystickHelper.start`,
for a single pygame event: updates the pressed set / hat positions and
returns the dispatch attempts made while handling the event. -/
def processEvent (s : HelperState) (e : PyEvent) : HelperState × List Dispatch :=
  match e with
  | .joyButtonDown button joy =>
    let button_name := "BUTTON_" ++ toString button
    let s' := { s with
      pressed_buttons := setAdd s.pressed_buttons (button_name ++ "_JOY" ++ toString joy) }
    (s', [process_button_press s' button_name (some joy)])
  | .joyButtonUp button joy =>
    let pressed_name := "BUTTON_" ++ toString button ++ "_JOY" ++ toString joy
    ({ s with pressed_buttons := setRemove s.pressed_buttons pressed_name }, [])
  | .joyHatMotion hat x y joy =>
    process_hat_event s hat x y (some joy)
  | .keyDown key_name =>
    -- NOTE (faithful to the source): the KEYDOWN branch dispatches the key
    -- id but never adds it to `self.pressed_buttons`.
    (s, [process_button_press s (keyboardId key_name) none])
  | .keyUp key_name =>
    ({ s with pressed_buttons := setRemove s.pressed_buttons (keyboardId key_name) }, [])

/-- The hat-position initialization of `EDJoystickHelper.__init__`:
for every joystick and every `hat_id in range(joystick.get_numhats())`,
`self.current_hat_positions[f"HAT_{hat_id}"] = "centered"` — note the key
carries no `_JOY` suffix.  `numhats` lists each attached joystick's hat
count; with no joysticks the constructor returns early with the dict
empty. -/
def initHatPositions (numhats : List Nat) : List (String × String) :=
  numhats.foldl
    (fun acc n =>
      (List.range n).foldl
        (fun a hat_id => dictSet a ("HAT_" ++ toString hat_id) "centered") acc)
    []

/-- The helper's state right after `EDJoystickHelper.__init__(config)`. -/
def initialHelperState (config : Config) (numhats : List Nat) : HelperState :=
  { config := config
    pressed_buttons := []
    current_hat_positions := initHatPositions numhats
    config_file_path := none }

/-- Outcome of a Python call: a normal return, an `Exception` (caught by
`except Exception`), or a `SystemExit` (raised by `sys.exit`, which does
NOT derive from `Exception` and is therefore not caught by
`except Exception`). -/
inductive PyFlow (α : Type)
  | ok (a : α)
  | exn
  | exits
deriving DecidableEq, Repr

/-- What the file system / parser supplies to `load_config_from_ini`:
the file is absent, or reading/parsing it raises an ordinary exception,
or it parses to a table. -/
inductive IniSource
  | missing
  | errors
  | table (c : Config)
deriving DecidableEq, Repr

/-- `main.load_config_from_ini(file_path)`: if the file does not exist it
logs and calls `sys.exit(1)` (a `SystemExit`); if reading or converting
the file raises, that exception propagates; otherwise it returns the
parsed table.  (The per-key `eval` fallbacks that replace an unparsable
`sequence` by `[]` happen inside the successful-parse case and are folded
into the resulting table.) -/
def load_config_from_ini : IniSource → PyFlow Config
  | .missing => .exits
  | .errors => .exn
  | .table c => .ok c

/-- `EDJoystickHelper.reload_config()`: with no stored path, log an error
and return `False`; otherwise call `load_config_from_ini` under
`try/except Exception` — on success install the new table and return
`True`, on an `Exception` return `False` with the old table untouched.
A `SystemExit` from the loader is not caught and escapes. -/
def reload_config (s : HelperState) (src : IniSource) :
    PyFlow (HelperState × Bool) :=
  match s.config_file_path with
  | none => .ok (s, false)
  | some _ =>
    match load_config_from_ini src with
    | .ok new_config => .ok ({ s with config := new_config }, true)
    | .exn => .ok (s, false)
    | .exits => .exits

/-- An operation applied to the running helper: one pygame event consumed
by the loop in `start`, or one `reload_config()` request issued from the
control surface. -/
inductive SysOp
  | ev (e : PyEvent)
  | reload (src : IniSource)
deriving DecidableEq, Repr

/-- Result of running a list of operations: the final state, every
dispatch attempt in order, and whether execution survived (a `SystemExit`
escaping a reload stops the run). -/
structure RunResult where
  state : HelperState
  dispatches : List Dispatch
  alive : Bool
deriving DecidableEq, Repr

/-- Run a list of operations from a state, accumulating dispatch
attempts.  Spawned executors are fire-and-forget threads: nothing they do
feeds back into this loop, so the run never consults their traces. -/
def runOps (s : HelperState) : List SysOp → RunResult
  | [] => ⟨s, [], true⟩
  | .ev e :: rest =>
    let p := processEvent s e
    let r := runOps p.1 rest
    ⟨r.state, p.2 ++ r.dispatches, r.alive⟩
  | .reload src :: rest =>
    match reload_config s src with
    | .ok (s', _) =>
      let r := runOps s' rest
      ⟨r.state, r.dispatches, r.alive⟩
    | .exn => ⟨s, [], false⟩
    | .exits => ⟨s, [], false⟩

/-- The spawned executors of a run, each with the trace its
`_execute_sequence` thread produces from its snapshot. -/
def spawnedTraces (r : RunResult) : List (String × (List ExecEvent × ExecOutcome)) :=
  r.dispatches.filterMap (fun d =>
    d.spawned.map (fun cfg => (d.key, execute_sequence d.key cfg)))

/-- The `default_config` dictionary of `src/main.py`, verbatim. -/
def default_config : Config :=
  [("HAT_0_up",
    { sequence := [⟨"v", 1⟩, ⟨"x", 2⟩] }),
   ("HAT_0_down",
    { sequence := [⟨"v", 1⟩, ⟨"c", 2⟩] }),
   ("HAT_0_left",
    { sequence := [⟨"v", 1⟩, ⟨"z", 1⟩, ⟨"x", 1⟩] }),
   ("HAT_0_right",
    { sequence := [⟨"v", 1⟩, ⟨"c", 1⟩, ⟨"x", 1⟩] }),
   ("BUTTON_27",
    { sequence := [⟨"n", 1⟩, ⟨"WAIT", 1⟩, ⟨"e", 2⟩, ⟨"KEY_SPACE", 1⟩,
                   ⟨"d", 1⟩, ⟨"KEY_SPACE", 1⟩, ⟨"e", 2⟩, ⟨"n", 1⟩] })]

/-- Transcription of the spec's §4.1 direction table, written the way the
spec states it (nine explicit axis pairs, every other combination
centered), for comparison with the source's `hat_direction`. -/
def specDirectionTable (x y : Int) : String :=
  if (x, y) = ((0 : Int), (1 : Int)) then "up"
  else if (x, y) = ((1 : Int), (1 : Int)) then "up-right"
  else if (x, y) = ((1 : Int), (0 : Int)) then "right"
  else if (x, y) = ((1 : Int), (-1 : Int)) then "down-right"
  else if (x, y) = ((0 : Int), (-1 : Int)) then "down"
  else if (x, y) = ((-1 : Int), (-1 : Int)) then "down-left"
  else if (x, y) = ((-1 : Int), (0 : Int)) then "left"
  else if (x, y) = ((-1 : Int), (1 : Int)) then "up-left"
  else "centered"

/-- The spec's wording of a key step: "repeats press→delay→release→delay
exactly `repeatCount` times, using `interKeyDelay` as both the post-press
and post-release pause". -/
def specKeyStepTrace (delay : ℚ) (key : KeyRef) (repeatCount : Nat) :
    List ExecEvent :=
  (List.replicate repeatCount
    [ExecEvent.press key, .sleep delay, .release key, .sleep delay]).flatten

/-- Projection of an executor trace onto the events the spec's sequence-
fidelity property talks about: output-sink calls and suspensions
(logging noise removed). -/
def sinkAndSleepEvents (es : List ExecEvent) : List ExecEvent :=
  es.filter (fun e =>
    match e with
    | .press _ => true
    | .release _ => true
    | .sleep _ => true
    | _ => false)

/-- Events of the executor trace that are calls into the `logging`
module. -/
def isLogEvent : ExecEvent → Bool
  | .logInfoExecStart _ => true
  | .logDebugPressing _ _ _ => true
  | _ => false

/-- An output-sink call that would synthesize a key named `"WAIT"`. -/
def isWaitKeystroke : ExecEvent → Bool
  | .press k => k == .char "WAIT"
  | .release k => k == .char "WAIT"
  | _ => false

/-- Fixture: a configuration whose only entry is a joystick button gated
by the keyboard modifier `"a"`. -/
def cfgModifierA : Config :=
  [("BUTTON_5_JOY0", { sequence := [⟨"v", 1⟩], modifier := some "a" })]

/-- Fixture: the spec's sequence-fidelity example action
`[{key:"v",repeatCount:1},{wait:0.2},{key:"x",repeatCount:2}]` with
`interKeyDelay = 0.1`. -/
def exampleC4Action : ButtonConfig :=
  { sequence := [⟨"v", 1⟩, ⟨"WAIT", mkRat 1 5⟩, ⟨"x", 2⟩],
    delay := some (mkRat 1 10) }

/-- Fixture: an action whose `preRun` hook raises. -/
def raisingPreAction : ButtonConfig :=
  { sequence := [⟨"v", 1⟩], preRun := some .raises }

/-- Fixture: an action whose `afterRun` hook raises. -/
def raisingPostAction : ButtonConfig :=
  { sequence := [⟨"v", 1⟩], afterRun := some .raises }

theorem pyRange_natCast (n : Nat) : pyRange (n : ℚ) = n := by
  simp [pyRange]

/-- C8: for all integer axis readings, the source's direction resolver
returns exactly the spec's nine-entry table value — (0,1)→up, (1,1)→
up-right, (1,0)→right, (1,-1)→down-right, (0,-1)→down, (-1,-1)→down-left,
(-1,0)→left, (-1,1)→up-left, (0,0)→centered — and every out-of-range
combination resolves to centered; the function is pure and total. -/
theorem C8_direction_resolver_matches_spec_table :
    ∀ x y : Int, hat_direction x y = specDirectionTable x y := by
  intro x y
  simp only [hat_direction, specDirectionTable, Prod.mk.injEq]

/-- C2: `_process_button_press` spawns an executor for an entry with a
required modifier exactly when the modifier is in the pressed set at that
moment; a trigger with no registry entry is a silent no-op, and a gated
trigger whose modifier is not held is likewise a silent no-op. -/
theorem C2_dispatch_modifier_gating (s : HelperState) (button_name : String)
    (joy_id : Option Nat) :
    (s.config.lookup (configKey button_name joy_id) = none →
       (process_button_press s button_name joy_id).spawned = none) ∧
    (∀ cfg m, s.config.lookup (configKey button_name joy_id) = some cfg →
       cfg.modifier = some m →
       (process_button_press s button_name joy_id).spawned =
         (if m ∈ s.pressed_buttons then some cfg else none)) := by
  constructor
  · intro h
    simp [process_button_press, h]
  · intro cfg m hl hm
    simp only [process_button_press, hl, hm]
    split_ifs <;> rfl

/-- Witness for C2 at concrete inputs: with the modifier `"a"` held the
gated button dispatches its configuration, and with the pressed set empty
it does not. -/
theorem C2_dispatch_modifier_gating_witness :
    (process_button_press
        { initialHelperState cfgModifierA [] with pressed_buttons := ["a"] }
        "BUTTON_5" (some 0)).spawned =
      some { sequence := [⟨"v", 1⟩], modifier := some "a" } ∧
    (process_button_press (initialHelperState cfgModifierA [])
        "BUTTON_5" (some 0)).spawned = none := by
  constructor
  · have h := (C2_dispatch_modifier_gating
      { initialHelperState cfgModifierA [] with pressed_buttons := ["a"] }
      "BUTTON_5" (some 0)).2
      { sequence := [⟨"v", 1⟩], modifier := some "a" } "a" (by decide) rfl
    rw [h]
    decide
  · have h := (C2_dispatch_modifier_gating (initialHelperState cfgModifierA [])
      "BUTTON_5" (some 0)).2
      { sequence := [⟨"v", 1⟩], modifier := some "a" } "a" (by decide) rfl
    rw [h]
    decide

theorem sinkAndSleepEvents_append (xs ys : List ExecEvent) :
    sinkAndSleepEvents (xs ++ ys) =
      sinkAndSleepEvents xs ++ sinkAndSleepEvents ys := by
  simp [sinkAndSleepEvents, List.filter_append]

theorem sink_filter_key_blocks (delay : ℚ) (k : KeyRef) (q : ℚ)
    (l : List Nat) :
    sinkAndSleepEvents (l.flatMap (fun i =>
        [.logDebugPressing k (i + 1) q, .press k, .sleep delay,
         .release k, .sleep delay])) =
      (List.replicate l.length
        [ExecEvent.press k, .sleep delay, .release k, .sleep delay]).flatten := by
  induction l with
  | nil => rfl
  | cons a t ih =>
    simp only [List.flatMap_cons, List.length_cons, List.replicate_succ,
      List.flatten_cons, sinkAndSleepEvents_append, ih]
    rfl

/-- C4: the executor emits, in order, one trace item per configured step;
a key step with an integral repeat count emits exactly that many
press→delay→release→delay rounds (the spec's key-step shape), using the
configured delay for both pauses; a wait step emits a single suspension
of its duration and no sink call; and the spec's example action
`[{key:"v",1},{wait:0.2},{key:"x",2}]` with delay `0.1` produces exactly
`press(v), 0.1, release(v), 0.1, wait(0.2), press(x), 0.1, release(x),
0.1, press(x), 0.1, release(x), 0.1`. -/
theorem C4_sequence_fidelity :
    (∀ (button_name : String) (cfg : ButtonConfig),
        cfg.preRun = none → cfg.afterRun = none →
        (execute_sequence button_name cfg).1 =
          .logInfoExecStart button_name ::
            cfg.sequence.flatMap (itemEvents (cfg.delay.getD (mkRat 1 10)))) ∧
    (∀ (delay : ℚ) (key : String) (n : Nat), key ≠ "WAIT" →
        sinkAndSleepEvents (itemEvents delay ⟨key, (n : ℚ)⟩) =
          specKeyStepTrace delay (map_key key) n) ∧
    (∀ (delay t : ℚ), itemEvents delay ⟨"WAIT", t⟩ = [.sleep t]) ∧
    sinkAndSleepEvents (execute_sequence "HAT_0_up" exampleC4Action).1 =
      [.press (.char "v"), .sleep (mkRat 1 10),
       .release (.char "v"), .sleep (mkRat 1 10),
       .sleep (mkRat 1 5),
       .press (.char "x"), .sleep (mkRat 1 10),
       .release (.char "x"), .sleep (mkRat 1 10),
       .press (.char "x"), .sleep (mkRat 1 10),
       .release (.char "x"), .sleep (mkRat 1 10)] := by
  refine ⟨?_, ?_, ?_, ?_⟩
  · intro button_name cfg h1 h2
    simp [execute_sequence, h1, h2]
  · intro delay key n hkey
    rw [itemEvents]
    rw [if_neg (by simpa using hkey)]
    simp only [pyRange_natCast, specKeyStepTrace]
    have h := sink_filter_key_blocks delay (map_key key) (n : ℚ) (List.range n)
    simpa using h
  · intro delay t
    simp [itemEvents]
  · decide

/-- Witness for C4: the general conjuncts applied at the example action
and at the key step `{key:"x", presses:2}` with delay `0.1`. -/
theorem C4_sequence_fidelity_witness :
    (execute_sequence "HAT_0_up" exampleC4Action).1 =
      .logInfoExecStart "HAT_0_up" ::
        exampleC4Action.sequence.flatMap
          (itemEvents (exampleC4Action.delay.getD (mkRat 1 10))) ∧
    sinkAndSleepEvents (itemEvents (mkRat 1 10) ⟨"x", ((2 : Nat) : ℚ)⟩) =
      specKeyStepTrace (mkRat 1 10) (.char "x") 2 ∧
    itemEvents (mkRat 1 10) ⟨"WAIT", mkRat 1 5⟩ = [.sleep (mkRat 1 5)] := by
  refine ⟨?_, ?_, ?_⟩
  · exact C4_sequence_fidelity.1 "HAT_0_up" exampleC4Action rfl rfl
  · have h := C4_sequence_fidelity.2.1 (mkRat 1 10) "x" 2 (by decide)
    rw [h]
    decide
  · exact C4_sequence_fidelity.2.2.1 (mkRat 1 10) (mkRat 1 5)

theorem map_key_ne_wait_char (key : String) (h : key ≠ "WAIT") :
    map_key key ≠ .char "WAIT" := by
  unfold map_key
  split
  · simp
  · simpa using h

theorem itemEvents_no_wait_keystroke (delay : ℚ) (item : SeqItem) :
    (itemEvents delay item).filter isWaitKeystroke = [] := by
  unfold itemEvents
  split
  · simp [isWaitKeystroke]
  · rename_i hkey
    have hk : map_key item.key ≠ .char "WAIT" := map_key_ne_wait_char _ hkey
    induction List.range (pyRange item.presses) with
    | nil => rfl
    | cons a t ih =>
      simp only [List.flatMap_cons, List.filter_append, ih]
      simp [isWaitKeystroke, hk]

theorem flatMap_itemEvents_no_wait_keystroke (delay : ℚ) (seq : List SeqItem) :
    (seq.flatMap (itemEvents delay)).filter isWaitKeystroke = [] := by
  induction seq with
  | nil => rfl
  | cons a t ih =>
    simp only [List.flatMap_cons, List.filter_append, ih,
      itemEvents_no_wait_keystroke]
    rfl

/-- C10: a sequence step whose `key` is the literal string `"WAIT"` makes
the executor suspend for the step's `presses` value (seconds) with no
output-sink call for that step, and no execution of any action ever
presses or releases a key named `"WAIT"` at the sink. -/
theorem C10_wait_step_never_synthesized (button_name : String)
    (cfg : ButtonConfig) (delay t : ℚ) :
    itemEvents delay ⟨"WAIT", t⟩ = [.sleep t] ∧
    (execute_sequence button_name cfg).1.filter isWaitKeystroke = [] := by
  constructor
  · simp [itemEvents]
  · rcases cfg with ⟨seq, d, m, pre, post⟩
    rcases pre with _ | (_ | _) <;> rcases post with _ | (_ | _) <;>
      simp [execute_sequence, List.filter_append,
        flatMap_itemEvents_no_wait_keystroke, isWaitKeystroke]

/-- C9 counterexample: the claim says "each hook fault is logged", but a
raising `preRun` hook ends the executor's trace at the hook invocation
itself — the only logging call in the whole trace is the "Executing
sequence" line emitted before the hook ran, so the fault is never logged
(the exception escapes the executor thread unhandled; `_execute_sequence`
wraps neither hook in try/except). -/
theorem C9_hook_fault_not_logged_counterexample :
    execute_sequence "BUTTON_0" raisingPreAction =
      ([.logInfoExecStart "BUTTON_0", .callPreRun "BUTTON_0"], .raised) ∧
    (execute_sequence "BUTTON_0" raisingPreAction).1.filter isLogEvent =
      [.logInfoExecStart "BUTTON_0"] := by
  decide

/-- C9 (amended): a fault raised by the pre-hook prevents the entire step
sequence and the post-hook from executing, a fault raised by the
post-hook occurs only after all steps already ran, and in both cases only
the affected executor is aborted; however, the fault is not logged — the
trace contains no logging call at or after the faulting hook invocation
(the exception simply escapes the executor's thread). -/
theorem C9_hook_faults_amended (button_name : String) (cfg : ButtonConfig) :
    (cfg.preRun = some .raises →
       execute_sequence button_name cfg =
         ([.logInfoExecStart button_name, .callPreRun button_name], .raised)) ∧
    (cfg.preRun ≠ some .raises → cfg.afterRun = some .raises →
       execute_sequence button_name cfg =
         (ExecEvent.logInfoExecStart button_name ::
            ((if cfg.preRun.isSome then [ExecEvent.callPreRun button_name] else []) ++
             cfg.sequence.flatMap (itemEvents (cfg.delay.getD (mkRat 1 10))) ++
             [.callAfterRun button_name]), .raised)) := by
  constructor
  · intro hpre
    simp [execute_sequence, hpre]
  · intro hpre hpost
    rcases cfg with ⟨seq, d, m, pre, post⟩
    rcases pre with _ | (_ | _) <;>
      simp_all [execute_sequence]

/-- Witness for C9 (amended): both conjuncts applied to concrete actions
with a raising pre-hook and a raising post-hook respectively. -/
theorem C9_hook_faults_amended_witness :
    execute_sequence "BUTTON_1" raisingPreAction =
      ([.logInfoExecStart "BUTTON_1", .callPreRun "BUTTON_1"], .raised) ∧
    execute_sequence "BUTTON_1" raisingPostAction =
      ([.logInfoExecStart "BUTTON_1",
        .logDebugPressing (.char "v") 1 1,
        .press (.char "v"), .sleep (mkRat 1 10),
        .release (.char "v"), .sleep (mkRat 1 10),
        .callAfterRun "BUTTON_1"], .raised) := by
  constructor
  · exact (C9_hook_faults_amended "BUTTON_1" raisingPreAction).1 rfl
  · have h := (C9_hook_faults_amended "BUTTON_1" raisingPostAction).2
      (by decide) rfl
    rw [h]
    decide

theorem runOps_append (s : HelperState) (l₁ l₂ : List SysOp) :
    (runOps s (l₁ ++ l₂)).dispatches =
      (runOps s l₁).dispatches ++
        (if (runOps s l₁).alive then
           (runOps (runOps s l₁).state l₂).dispatches
         else []) := by
  induction l₁ generalizing s with
  | nil => simp [runOps]
  | cons op t ih =>
    cases op with
    | ev e =>
      simp [runOps, ih, List.append_assoc]
    | reload src =>
      rcases h : reload_config s src with ⟨s', b⟩ | _ | _ <;>
        simp [runOps, h, ih]

/-- C7: a reload is not retroactive.  Every executor spawned while
processing events before a `reload_config` call captured its
`(config_key, button_config)` snapshot by value; running the same prefix
with a reload (and arbitrary further operations) appended yields exactly
the same earlier dispatches — same keys, same snapshots — followed by
whatever comes later, and each such executor's whole trace is computed
from its snapshot alone, so no post-snapshot registry mutation is
observable by it. -/
theorem C7_reload_not_retroactive (s : HelperState) (pre : List SysOp)
    (src : IniSource) (post : List SysOp) :
    ∃ later : List Dispatch,
      (runOps s (pre ++ .reload src :: post)).dispatches =
        (runOps s pre).dispatches ++ later ∧
      spawnedTraces (runOps s (pre ++ .reload src :: post)) =
        spawnedTraces (runOps s pre) ++
          later.filterMap (fun d =>
            d.spawned.map (fun cfg => (d.key, execute_sequence d.key cfg))) := by
  refine ⟨(if (runOps s pre).alive then
      (runOps (runOps s pre).state (.reload src :: post)).dispatches
    else []), ?_, ?_⟩
  · exact runOps_append s pre (.reload src :: post)
  · simp only [spawnedTraces, runOps_append s pre (.reload src :: post),
      List.filterMap_append]

/-- C1 (code bug): contrary to the spec, the KEYDOWN branch of `start`
never calls `onPress` — after a key-down for `"a"` the pressed set is
still empty, and it stays without `"a"` for the rest of the run, so a
held keyboard key never satisfies the membership test and cannot serve as
a required modifier: pressing `BUTTON_5` on joystick 0 while `"a"` is
physically held dispatches nothing (both attempts spawn no executor).
The KEYUP branch's guarded removal of the key id is dead code. -/
theorem C1_keydown_never_added_to_pressed :
    ((processEvent (initialHelperState cfgModifierA []) (.keyDown "a")).1.pressed_buttons
        = []) ∧
    ((runOps (initialHelperState cfgModifierA [])
        [.ev (.keyDown "a"), .ev (.joyButtonDown 5 0)]).state.pressed_buttons
        = ["BUTTON_5_JOY0"]) ∧
    ((runOps (initialHelperState cfgModifierA [])
        [.ev (.keyDown "a"), .ev (.joyButtonDown 5 0)]).dispatches
        = [⟨"a", none⟩, ⟨"BUTTON_5_JOY0", none⟩]) := by
  decide

/-- C3 (code bug): `__init__` seeds the hat-position dict under the key
`HAT_0`, but `start` always hands `_process_hat_event` a joystick id, so
the lookup key is `HAT_0_JOY0` — the seeded "centered" entry is never
consulted and the first sample's stored value is `None`.  Hence a first
sample resolving to centered DOES propagate (dispatch attempt
`HAT_0_JOY0_centered`), and the sample sequence centered→up→up→right
produces three dispatch attempts (centered, up, right), not the two (up,
right) the claim requires. -/
theorem C3_first_centered_sample_propagates :
    ((initialHelperState default_config [1]).current_hat_positions
        = [("HAT_0", "centered")]) ∧
    ((runOps (initialHelperState default_config [1])
        [.ev (.joyHatMotion 0 0 0 0), .ev (.joyHatMotion 0 0 1 0),
         .ev (.joyHatMotion 0 0 1 0), .ev (.joyHatMotion 0 1 0 0)]).dispatches.map
          (fun d => d.key)
        = ["HAT_0_JOY0_centered", "HAT_0_JOY0_up", "HAT_0_JOY0_right"]) := by
  decide

/-- C5 (code bug): the `_JOY<id>` device suffix is applied
unconditionally, not only with multiple devices: with a single joystick
attached, pressing button 27 looks up `BUTTON_27_JOY0` and records
`BUTTON_27_JOY0` in the pressed set, so the repository's own shipped
`default_config` entry keyed `BUTTON_27` is never matched and nothing is
dispatched. -/
theorem C5_device_suffix_always_applied :
    ((default_config.lookup "BUTTON_27").isSome = true) ∧
    ((runOps (initialHelperState default_config [0])
        [.ev (.joyButtonDown 27 0)]).dispatches
        = [⟨"BUTTON_27_JOY0", none⟩]) ∧
    ((runOps (initialHelperState default_config [0])
        [.ev (.joyButtonDown 27 0)]).state.pressed_buttons
        = ["BUTTON_27_JOY0"]) := by
  decide

/-- C6 (code bug): a reload whose configuration file is missing is fatal,
not a recoverable `False` result: `load_config_from_ini` calls
`sys.exit(1)`, and the resulting `SystemExit` is not an `Exception`, so
`reload_config`'s `except Exception` does not catch it and the run dies.
An ordinary loader exception, by contrast, is caught: the old table stays
installed and `False` is returned, which is the behaviour the claim
expects for every failure. -/
theorem C6_missing_file_reload_is_fatal :
    (reload_config
        { initialHelperState default_config [] with
            config_file_path := some "config.ini" } .missing = .exits) ∧
    ((runOps
        { initialHelperState default_config [] with
            config_file_path := some "config.ini" }
        [.reload .missing]).alive = false) ∧
    (reload_config
        { initialHelperState default_config [] with
            config_file_path := some "config.ini" } .errors =
      .ok ({ initialHelperState default_config [] with
               config_file_path := some "config.ini" }, false)) := by
  decide
